import Mathlib

set_option maxHeartbeats 1000000

/-!
Shallow embedding of the chat synchronization logic of
`src/components/chat/message-view.tsx` and `src/components/chat/chat-list.tsx`.

The client state gathers the pieces the two components read and write:
the active chat id (the `chat` prop of `MessageView`), the react-query
cache of per-chat message threads (query key `["messages", chat._id]`,
each entry the newest-first list the source stores under
`data.data.data`), the directory snapshot (query key `["chats"]`), and
the invalidation flags raised by `invalidateQueries`.
-/

/-- Model of a chat message as the views consume it: `_id`, `chatId`,
`content`, `createdAt` (a numeric timestamp standing for the ISO date
string), `isMe`. -/
structure Message where
  id : String
  chatId : String
  content : String
  createdAt : Nat
  isMe : Bool
deriving DecidableEq, Repr

/-- Model of the `lastMessage` preview stored on a directory chat entry;
`chat-list.tsx` reads its `content`, `createdAt` and `isMe`. -/
structure LastMessage where
  content : String
  createdAt : Nat
  isMe : Bool
deriving DecidableEq, Repr

/-- Model of a chat entry of the directory as `chat-list.tsx` renders it. -/
structure Chat where
  id : String
  title : String
  isGroupChat : Bool
  lastMessage : Option LastMessage
deriving DecidableEq, Repr

/-- Model of the client-side state relevant to synchronization: active
chat id, cached threads keyed by chat id (newest-first), the directory
snapshot, and the invalidation flags for the `chats` and `messages`
queries. -/
structure ClientState where
  activeChatId : String
  threads : String → Option (List Message)
  directory : List Chat
  chatsInvalidated : Bool
  messagesInvalidated : Bool

/-- Model of `handleNewMessage` (message-view.tsx lines 54-68): on a
`newMessage` push event, when the message is for the active chat,
`setQueryData` rewrites the cached thread — an absent cache becomes the
one-element list `[newMessage]`, an existing list gets the message
prepended unconditionally — and the `chats` query is invalidated. For a
message of any other chat the handler does nothing at all. -/
def handleNewMessage (s : ClientState) (m : Message) : ClientState :=
  if m.chatId = s.activeChatId then
    { s with
      threads := fun c =>
        if c = s.activeChatId then
          some (match s.threads s.activeChatId with
                | none => [m]
                | some old => m :: old)
        else s.threads c,
      chatsInvalidated := true }
  else s

/-- Model of `String.prototype.trim()`: strips leading and trailing
whitespace. Defined over the underlying character list so that it
evaluates by kernel reduction on concrete strings. -/
def jsTrim (s : String) : String :=
  ⟨((s.data.dropWhile Char.isWhitespace).reverse.dropWhile Char.isWhitespace).reverse⟩

/-- Model of the payload handed to `chatApi.sendMessage`. -/
structure SendRequest where
  chatId : String
  content : String
deriving DecidableEq, Repr

/-- Model of `handleSendMessage` (message-view.tsx lines 82-90): when the
trimmed draft is empty the submit returns early with no effect at all;
otherwise one send request carrying the trimmed draft is issued. The
client state is untouched either way — store effects happen only in the
mutation callbacks. -/
def handleSendMessage (s : ClientState) (chatId draft : String) :
    ClientState × Option SendRequest :=
  if jsTrim draft = "" then (s, none)
  else (s, some { chatId := chatId, content := jsTrim draft })

/-- Model of the outcome the send mutation reports to its callbacks. -/
inductive SendResult where
  | success (m : Message)
  | failure
deriving DecidableEq

/-- Model of the `sendMessageMutation` callbacks (message-view.tsx lines
36-46): `onSuccess` clears the compose input and invalidates the
`messages` and `chats` queries; `onError` only raises an error toast.
Returns the compose input afterwards, the client state afterwards, and
whether the error toast was shown. -/
def applySendResult (r : SendResult) (draft : String) (s : ClientState) :
    String × ClientState × Bool :=
  match r with
  | SendResult.success _ =>
      ("", { s with chatsInvalidated := true, messagesInvalidated := true }, false)
  | SendResult.failure => (draft, s, true)

/-- Model of `Array.prototype.slice()` with no arguments: a copy of the
stored list, distinct from the stored array object. -/
def jsSlice (l : List Message) : List Message := l

/-- Model of `Array.prototype.reverse()` applied to the copy. -/
def jsReverse (l : List Message) : List Message := l.reverse

/-- Model of the thread rendering (message-view.tsx lines 161-165): the
displayed order is `messages.slice().reverse()`, and the second
component is the stored list after rendering — `.slice()` copies before
`.reverse()` mutates, so the stored list comes back unchanged. -/
def renderThread (stored : List Message) : List Message × List Message :=
  (jsReverse (jsSlice stored), stored)

/-- Model of the message sequence the active thread displays, read from
the cached thread of the active chat. -/
def renderedOf (s : ClientState) : List Message :=
  (renderThread ((s.threads s.activeChatId).getD [])).1

/-- Model of a thread fetch resolving: `useQuery` with query key
`["messages", chatId]` (message-view.tsx lines 29-34) stores the fetched
newest-first page at that chat's own key, replacing whatever was cached
there and touching no other key. -/
def resolveFetch (s : ClientState) (chatId : String) (page : List Message) :
    ClientState :=
  { s with threads := fun c => if c = chatId then some page else s.threads c }

/-- Model of the compose text input's `disabled` prop (message-view.tsx
line 240): disabled exactly while the send mutation is pending. -/
def composeInputDisabled (pending : Bool) : Bool := pending

/-- Model of the submit button's `disabled` prop (message-view.tsx line
254): disabled when the trimmed draft is empty or the send mutation is
pending. -/
def sendButtonDisabled (draft : String) (pending : Bool) : Bool :=
  jsTrim draft = "" || pending

/-- Number of stored copies of the message id `i` in a cached thread. -/
def countId (t : Option (List Message)) (i : String) : Nat :=
  (t.getD []).countP (fun m => m.id == i)

/-- Concrete client state: chat `chatA` active, its thread cached empty. -/
def s1 : ClientState where
  activeChatId := "chatA"
  threads := fun c => if c = "chatA" then some [] else none
  directory := []
  chatsInvalidated := false
  messagesInvalidated := false

/-- Concrete message for the active chat `chatA`. -/
def m1A : Message where
  id := "m1"
  chatId := "chatA"
  content := "ciao"
  createdAt := 10
  isMe := false

/-- Concrete earlier message for `chatA`. -/
def mx1 : Message where
  id := "x1"
  chatId := "chatA"
  content := "uno"
  createdAt := 1
  isMe := false

/-- Concrete later message for `chatA`. -/
def mx2 : Message where
  id := "x2"
  chatId := "chatA"
  content := "due"
  createdAt := 2
  isMe := true

/-- Concrete directory entry for the inactive chat `chatB`, preview at
timestamp 1. -/
def chatB0 : Chat where
  id := "chatB"
  title := "B"
  isGroupChat := false
  lastMessage := some { content := "old", createdAt := 1, isMe := false }

/-- Concrete state: `chatA` active while the directory holds `chatB`. -/
def s3 : ClientState where
  activeChatId := "chatA"
  threads := fun c => if c = "chatA" then some [] else none
  directory := [chatB0]
  chatsInvalidated := false
  messagesInvalidated := false

/-- Concrete push message for the non-active chat `chatB`, newer than its
stored preview. -/
def mB : Message where
  id := "mb"
  chatId := "chatB"
  content := "fresh"
  createdAt := 5
  isMe := false

/-- Concrete directory entry for the active chat `chatA`, preview at
timestamp 1. -/
def chatA0 : Chat where
  id := "chatA"
  title := "A"
  isGroupChat := false
  lastMessage := some { content := "old", createdAt := 1, isMe := false }

/-- Concrete state: `chatA` active and listed in the directory. -/
def s5 : ClientState where
  activeChatId := "chatA"
  threads := fun c => if c = "chatA" then some [] else none
  directory := [chatA0]
  chatsInvalidated := false
  messagesInvalidated := false

/-- Concrete state with no cached thread for the active chat. -/
def s10 : ClientState where
  activeChatId := "chatA"
  threads := fun _ => none
  directory := []
  chatsInvalidated := false
  messagesInvalidated := false

lemma handleNewMessage_activeChatId (s : ClientState) (m : Message) :
    (handleNewMessage s m).activeChatId = s.activeChatId := by
  unfold handleNewMessage
  split <;> rfl

lemma handleNewMessage_active (s : ClientState) (m : Message)
    (h : m.chatId = s.activeChatId) :
    (handleNewMessage s m).threads s.activeChatId
      = some (m :: (s.threads s.activeChatId).getD []) := by
  unfold handleNewMessage
  rw [if_pos h]
  simp only
  rw [if_pos trivial]
  cases s.threads s.activeChatId <;> rfl

lemma thread_after_two (s : ClientState) (m1 m2 : Message)
    (h1 : m1.chatId = s.activeChatId) (h2 : m2.chatId = s.activeChatId) :
    (handleNewMessage (handleNewMessage s m1) m2).threads s.activeChatId
      = some (m2 :: m1 :: (s.threads s.activeChatId).getD []) := by
  have ha := handleNewMessage_activeChatId s m1
  have t1 := handleNewMessage_active s m1 h1
  have t2 := handleNewMessage_active (handleNewMessage s m1) m2 (by rw [ha]; exact h2)
  rw [ha, t1] at t2
  simpa using t2

/-- C1 counterexample: delivering the same message (same id, same payload)
twice via the push handler leaves two stored copies of it in the active
thread, not one; the already-known message is inserted again, not
dropped. -/
theorem C1_counterexample :
    countId ((handleNewMessage (handleNewMessage s1 m1A) m1A).threads "chatA") "m1" = 2 ∧
    countId ((handleNewMessage (handleNewMessage s1 m1A) m1A).threads "chatA") "m1" ≠ 1 := by
  constructor <;> decide

/-- C1 amended: the push handler performs no id-based de-duplication —
each delivery of a message for the active chat unconditionally prepends
it, so the number of stored copies of its id grows by one per delivery,
and N deliveries of the same message leave N copies. -/
theorem C1_amended_thm (s : ClientState) (m : Message)
    (h : m.chatId = s.activeChatId) :
    countId ((handleNewMessage s m).threads s.activeChatId) m.id
      = countId (s.threads s.activeChatId) m.id + 1 := by
  rw [handleNewMessage_active s m h]
  simp [countId, List.countP_cons]

/-- Witness for the amended C1 at a concrete state and message. -/
theorem C1_amended_witness :
    m1A.chatId = s1.activeChatId ∧
    countId ((handleNewMessage s1 m1A).threads s1.activeChatId) m1A.id
      = countId (s1.threads s1.activeChatId) m1A.id + 1 :=
  ⟨rfl, C1_amended_thm s1 m1A rfl⟩

/-- C2 counterexample: two distinct messages of the active chat with
increasing timestamps, delivered via push in the order (m2, m1), render
in a different order than when delivered as (m1, m2): the handler always
prepends, so the rendered order tracks arrival order. -/
theorem C2_counterexample :
    mx1.chatId = mx2.chatId ∧ mx1.createdAt < mx2.createdAt ∧
    renderedOf (handleNewMessage (handleNewMessage s1 mx2) mx1)
      ≠ renderedOf (handleNewMessage (handleNewMessage s1 mx1) mx2) := by
  refine ⟨rfl, by decide, by decide⟩

/-- C2 amended: delivering two distinct messages of the active chat in
either order yields the same stored message multiset (the two stored
threads are permutations of each other), but not the same rendered
order — the rendered sequences of the two delivery orders always
differ. -/
theorem C2_amended_thm (s : ClientState) (m1 m2 : Message)
    (h1 : m1.chatId = s.activeChatId) (h2 : m2.chatId = s.activeChatId)
    (hne : m1 ≠ m2) :
    List.Perm
      (((handleNewMessage (handleNewMessage s m1) m2).threads s.activeChatId).getD [])
      (((handleNewMessage (handleNewMessage s m2) m1).threads s.activeChatId).getD []) ∧
    renderedOf (handleNewMessage (handleNewMessage s m1) m2)
      ≠ renderedOf (handleNewMessage (handleNewMessage s m2) m1) := by
  have t12 := thread_after_two s m1 m2 h1 h2
  have t21 := thread_after_two s m2 m1 h2 h1
  have ha12 : (handleNewMessage (handleNewMessage s m1) m2).activeChatId
      = s.activeChatId := by
    rw [handleNewMessage_activeChatId, handleNewMessage_activeChatId]
  have ha21 : (handleNewMessage (handleNewMessage s m2) m1).activeChatId
      = s.activeChatId := by
    rw [handleNewMessage_activeChatId, handleNewMessage_activeChatId]
  have r12 : renderedOf (handleNewMessage (handleNewMessage s m1) m2)
      = (m2 :: m1 :: (s.threads s.activeChatId).getD []).reverse := by
    simp only [renderedOf, renderThread, jsReverse, jsSlice]
    rw [ha12, t12]
    rfl
  have r21 : renderedOf (handleNewMessage (handleNewMessage s m2) m1)
      = (m1 :: m2 :: (s.threads s.activeChatId).getD []).reverse := by
    simp only [renderedOf, renderThread, jsReverse, jsSlice]
    rw [ha21, t21]
    rfl
  constructor
  · rw [t12, t21]
    simpa using List.Perm.swap m1 m2 ((s.threads s.activeChatId).getD [])
  · rw [r12, r21]
    intro heq
    rw [List.reverse_inj] at heq
    injection heq with hh _
    exact hne hh.symm

/-- Witness for the amended C2 at a concrete state and message pair. -/
theorem C2_amended_witness :
    mx1.chatId = s1.activeChatId ∧ mx2.chatId = s1.activeChatId ∧ mx1 ≠ mx2 ∧
    (List.Perm
      (((handleNewMessage (handleNewMessage s1 mx1) mx2).threads s1.activeChatId).getD [])
      (((handleNewMessage (handleNewMessage s1 mx2) mx1).threads s1.activeChatId).getD []) ∧
    renderedOf (handleNewMessage (handleNewMessage s1 mx1) mx2)
      ≠ renderedOf (handleNewMessage (handleNewMessage s1 mx2) mx1)) :=
  ⟨rfl, rfl, by decide, C2_amended_thm s1 mx1 mx2 rfl rfl (by decide)⟩

/-- C3 counterexample: a push event for the non-active chat `chatB`
leaves the active thread unchanged, but — contrary to the claim — also
leaves the directory untouched: `chatB`'s preview keeps its old content
and timestamp, and the `chats` query is not even invalidated (the
invalidation sits inside the matching-chat branch). -/
theorem C3_counterexample :
    (handleNewMessage s3 mB).threads s3.activeChatId = s3.threads s3.activeChatId ∧
    (handleNewMessage s3 mB).directory = s3.directory ∧
    (handleNewMessage s3 mB).chatsInvalidated = false ∧
    (handleNewMessage s3 mB).directory.map Chat.lastMessage
      = [some { content := "old", createdAt := 1, isMe := false }] := by
  refine ⟨by decide, by decide, by decide, by decide⟩

/-- C3 amended: a push event whose chatId differs from the active chat
leaves the whole client state unchanged — the active thread is
untouched, and the directory (including the preview of the message's
own chat) is neither updated nor invalidated; that preview refreshes
only at the next periodic directory fetch. -/
theorem C3_amended_thm (s : ClientState) (m : Message)
    (h : m.chatId ≠ s.activeChatId) :
    handleNewMessage s m = s := by
  unfold handleNewMessage
  rw [if_neg h]

/-- Witness for the amended C3 at a concrete state and message. -/
theorem C3_amended_witness :
    mB.chatId ≠ s3.activeChatId ∧ handleNewMessage s3 mB = s3 :=
  ⟨by decide, C3_amended_thm s3 mB (by decide)⟩

/-- C5 counterexample: the directory holds `chatA` with a preview at
timestamp 1; an incoming message for that chat with the later timestamp
10 does not replace `lastMessage` — the handler never rewrites the
directory locally, it only marks the `chats` query invalidated. -/
theorem C5_counterexample :
    s5.directory.map Chat.lastMessage
      = [some { content := "old", createdAt := 1, isMe := false }] ∧
    m1A.chatId = s5.activeChatId ∧ m1A.createdAt = 10 ∧
    (handleNewMessage s5 m1A).directory.map Chat.lastMessage
      = [some { content := "old", createdAt := 1, isMe := false }] := by
  refine ⟨by decide, rfl, rfl, by decide⟩

/-- C5 amended: the client never locally rewrites a chat's stored
`lastMessage` from an incoming message — processing any push message
leaves the directory snapshot unchanged (so in particular the preview
timestamp never regresses locally, and a later-timestamped message does
not replace it either); for a message of the active chat the `chats`
query is invalidated so the next refetch supplies the fresh preview,
and for any other chat nothing happens at all. -/
theorem C5_amended_thm (s : ClientState) (m : Message) :
    (handleNewMessage s m).directory = s.directory ∧
    (m.chatId = s.activeChatId → (handleNewMessage s m).chatsInvalidated = true) := by
  unfold handleNewMessage
  by_cases h : m.chatId = s.activeChatId
  · rw [if_pos h]
    exact ⟨rfl, fun _ => rfl⟩
  · rw [if_neg h]
    exact ⟨rfl, fun hh => absurd hh h⟩

/-- Witness for the amended C5 at a concrete state and message. -/
theorem C5_amended_witness :
    (handleNewMessage s5 m1A).directory = s5.directory ∧
    (handleNewMessage s5 m1A).chatsInvalidated = true :=
  ⟨(C5_amended_thm s5 m1A).1, (C5_amended_thm s5 m1A).2 rfl⟩

/-- C4: submitting the send form with a draft that trims to empty (all
whitespace, including the empty string) issues no send request and
leaves the client state untouched; a request is issued exactly when the
trimmed draft is non-empty, and the content it carries is the trimmed
draft. -/
theorem C4_send_validation (s : ClientState) (chatId draft : String) :
    (handleSendMessage s chatId draft).1 = s ∧
    ((handleSendMessage s chatId draft).2 = none ↔ jsTrim draft = "") ∧
    (jsTrim draft ≠ "" →
      (handleSendMessage s chatId draft).2
        = some { chatId := chatId, content := jsTrim draft }) := by
  unfold handleSendMessage
  by_cases h : jsTrim draft = ""
  · rw [if_pos h]
    refine ⟨rfl, ?_, ?_⟩
    · exact ⟨(fun _ => h), (fun _ => rfl)⟩
    · exact fun hne => absurd h hne
  · rw [if_neg h]
    refine ⟨rfl, ?_, ?_⟩
    · exact ⟨(fun hc => by cases hc), (fun hc => absurd hc h)⟩
    · exact fun _ => rfl

/-- Witness for C4: a whitespace-only draft yields no request and no state
change; a padded draft yields a request with the trimmed content. -/
theorem C4_send_validation_witness :
    (handleSendMessage s1 "chatA" "   ").1 = s1 ∧
    (handleSendMessage s1 "chatA" "   ").2 = none ∧
    (handleSendMessage s1 "chatA" " ciao ").2
      = some { chatId := "chatA", content := "ciao" } :=
  ⟨(C4_send_validation s1 "chatA" "   ").1,
   ((C4_send_validation s1 "chatA" "   ").2.1).mpr (by decide),
   by
     have hx := (C4_send_validation s1 "chatA" " ciao ").2.2 (by decide)
     rw [hx]
     decide⟩

/-- C6: on send success the compose input is cleared; on send failure the
client state (threads cache and directory alike) is not mutated, the
error toast is raised, and the compose input keeps the draft unchanged
for retry. -/
theorem C6_send_outcome (draft : String) (s : ClientState) (m : Message) :
    (applySendResult (SendResult.success m) draft s).1 = "" ∧
    (applySendResult SendResult.failure draft s).1 = draft ∧
    (applySendResult SendResult.failure draft s).2.1 = s ∧
    (applySendResult SendResult.failure draft s).2.2 = true :=
  ⟨rfl, rfl, rfl, rfl⟩

/-- C7: the rendered thread is exactly the reverse of the stored
newest-first sequence — the entry displayed at position i is the stored
entry at the mirrored position — and rendering leaves the stored
sequence itself unchanged. -/
theorem C7_render_reverse (stored : List Message) :
    (renderThread stored).2 = stored ∧
    (renderThread stored).1 = stored.reverse ∧
    (∀ i : Nat, i < stored.length →
      (renderThread stored).1[i]? = stored[stored.length - 1 - i]?) := by
  refine ⟨rfl, rfl, fun i hi => ?_⟩
  simp only [renderThread, jsReverse, jsSlice]
  exact List.getElem?_reverse hi

/-- Witness for C7 at a concrete two-element thread: position 0 of the
rendered list shows stored position 1, and the stored list survives. -/
theorem C7_render_reverse_witness :
    (renderThread [mx2, mx1]).2 = [mx2, mx1] ∧
    (renderThread [mx2, mx1]).1[0]? = [mx2, mx1][1]? :=
  ⟨(C7_render_reverse [mx2, mx1]).1,
   (C7_render_reverse [mx2, mx1]).2.2 0 (by decide)⟩

/-- C8: thread fetches land in per-chat cache entries, so after chat B's
fetch resolves, a late resolution of chat A's fetch (A distinct from B)
writes only to A's entry: B's thread stays the page B's own fetch
delivered. -/
theorem C8_stale_fetch (s : ClientState) (a b : String)
    (pa pb : List Message) (hab : a ≠ b) :
    (resolveFetch (resolveFetch s b pb) a pa).threads b = some pb ∧
    (resolveFetch (resolveFetch s b pb) a pa).threads a = some pa := by
  constructor
  · simp only [resolveFetch]
    rw [if_neg (fun hba => hab hba.symm), if_pos trivial]
  · simp only [resolveFetch]
    rw [if_pos trivial]

/-- Witness for C8 at concrete chats and pages. -/
theorem C8_stale_fetch_witness :
    ("chatA" : String) ≠ "chatB" ∧
    (resolveFetch (resolveFetch s1 "chatB" [mB]) "chatA" [m1A]).threads "chatB"
      = some [mB] ∧
    (resolveFetch (resolveFetch s1 "chatB" [mB]) "chatA" [m1A]).threads "chatA"
      = some [m1A] :=
  ⟨by decide,
   (C8_stale_fetch s1 "chatA" "chatB" [m1A] [mB] (by decide)).1,
   (C8_stale_fetch s1 "chatA" "chatB" [m1A] [mB] (by decide)).2⟩

/-- C9: while the send mutation is pending, the compose text input is
disabled and the submit button is disabled, whatever the draft. -/
theorem C9_pending_disables (draft : String) :
    composeInputDisabled true = true ∧ sendButtonDisabled draft true = true := by
  constructor
  · rfl
  · simp [sendButtonDisabled]

/-- C10: a push event for the active chat arriving while no thread is
cached seeds the thread with exactly that one message, and a baseline
fetch for the active chat completing afterwards replaces the seeded
state with the fetched page. -/
theorem C10_seed_then_fetch (s : ClientState) (m : Message)
    (page : List Message) (hnone : s.threads s.activeChatId = none)
    (hm : m.chatId = s.activeChatId) :
    (handleNewMessage s m).threads s.activeChatId = some [m] ∧
    (resolveFetch (handleNewMessage s m) s.activeChatId page).threads s.activeChatId
      = some page := by
  constructor
  · rw [handleNewMessage_active s m hm, hnone]
    rfl
  · simp only [resolveFetch]
    rw [if_pos trivial]

/-- Witness for C10 at a concrete empty-cache state. -/
theorem C10_seed_then_fetch_witness :
    s10.threads s10.activeChatId = none ∧ m1A.chatId = s10.activeChatId ∧
    (handleNewMessage s10 m1A).threads s10.activeChatId = some [m1A] ∧
    (resolveFetch (handleNewMessage s10 m1A) s10.activeChatId [mx1]).threads
      s10.activeChatId = some [mx1] :=
  ⟨rfl, rfl,
   (C10_seed_then_fetch s10 m1A [mx1] rfl rfl).1,
   (C10_seed_then_fetch s10 m1A [mx1] rfl rfl).2⟩
